import Mathlib

/-!
Verification of the redshift status-bar widget
(`libqtile/widget/redshift.py`): the `RedshiftDriver` that shells out to
the external `redshift` binary, and the `Redshift` widget that tracks an
enabled flag and a scroll cursor over a four-entry list of display lines.

Modelling conventions:
* Numeric configuration options (floats and ints: brightness, temperature,
  the three gamma components) are modelled by their Python `str()`
  rendering, as `String`s.  The widget never performs arithmetic on them;
  it only interpolates them into display strings and command-line
  arguments, so their string rendering is the only observable.
* The external subprocess is modelled by an oracle value `ProcOutcome`
  describing how the invocation ends (exit with a given code, or an
  exception such as a missing binary).  `subprocess.run(..., check=True)`
  becomes a function of that oracle.
* Python exceptions are modelled with `Except`: a function returning
  `Except PyError _` models a method that may raise, and a plain function
  models one that cannot.
* Side effects visible to the host bar (text assignments, redraw requests,
  driver invocations) are collected in an event trace `List Event`.
* Python `str.format` with the widget's six keyword arguments is modelled
  for plain replacement fields `\x7bname\x7d` (no conversion `!r`/`!s` and
  no format specifier `:spec`, which the widget's templates do not use):
  doubled braces are literals, an unknown field name raises `KeyError`,
  and an unmatched brace raises `ValueError`, as in Python.
-/

/-- Decidable equality for `Except` results, so that concrete runs of the
model can be checked by `decide`. -/
instance {ε α : Type} [DecidableEq ε] [DecidableEq α] : DecidableEq (Except ε α) := fun a b =>
  match a, b with
  | Except.ok x, Except.ok y =>
    if h : x = y then isTrue (by rw [h]) else isFalse (by simp [h])
  | Except.ok _, Except.error _ => isFalse (by simp)
  | Except.error _, Except.ok _ => isFalse (by simp)
  | Except.error e, Except.error f =>
    if h : e = f then isTrue (by rw [h]) else isFalse (by simp [h])

/-- How an invocation of the external `redshift` process ends: the process
runs and exits with the given code, or the invocation itself raises
(missing binary, spawn failure, ...). -/
inductive ProcOutcome where
  | exit (code : Nat)
  | raise
deriving DecidableEq

/-- Exceptions of the subprocess model: `CalledProcessError` from
`check=True` on a non-zero exit, or any other invocation exception. -/
inductive ProcError where
  | calledProcessError (code : Nat)
  | otherException
deriving DecidableEq

/-- `subprocess.run(args, check=True)`: returns normally exactly on a
zero exit code, raises `CalledProcessError` on a non-zero exit, and
re-raises any other invocation exception. -/
def subprocess_run_check (o : ProcOutcome) : Except ProcError Unit :=
  match o with
  | ProcOutcome.exit 0 => Except.ok ()
  | ProcOutcome.exit c => Except.error (ProcError.calledProcessError c)
  | ProcOutcome.raise => Except.error ProcError.otherException

/-- `GammaGroup`: helper class storing the redshift gamma settings.  The
three components hold the `str()` rendering of the configured floats. -/
structure GammaGroup where
  red : String
  green : String
  blue : String
deriving DecidableEq

/-- `GammaGroup._redshift_fmt`: the `"R:G:B"` string passed to the
`redshift` binary after `-g`. -/
def GammaGroup._redshift_fmt (g : GammaGroup) : String :=
  g.red ++ ":" ++ g.green ++ ":" ++ g.blue

/-- `GammaGroup.__repr__`: the display form `"Gamma: R:G:B"`. -/
def GammaGroup.pyRepr (g : GammaGroup) : String :=
  "Gamma: " ++ g._redshift_fmt

/-- `RedshiftDriver.enable`: runs
`redshift -P -O <temperature> -b <brightness> -g <R:G:B>` with
`check=True`; `success_code` starts at 1, any exception sets it to 0, and
the `finally` block returns it, so the method returns an `Int` and never
propagates an exception. -/
def RedshiftDriver.enable (temperature : String) (gamma : GammaGroup)
    (brightness : String) (o : ProcOutcome) : Int :=
  match subprocess_run_check o with
  | Except.ok _ => 1
  | Except.error _ => 0

/-- `RedshiftDriver.reset`: runs `redshift -x` with `check=True`; same
`success_code` protocol as `enable`, returning an `Int` and never
propagating an exception. -/
def RedshiftDriver.reset (o : ProcOutcome) : Int :=
  match subprocess_run_check o with
  | Except.ok _ => 1
  | Except.error _ => 0

/-- Exceptions the widget code can raise: `str.format` failures
(`KeyError` on an unknown field name, `ValueError` on a malformed
template) and `IndexError` from list indexing. -/
inductive PyError where
  | keyError (name : String)
  | valueError
  | indexError
deriving DecidableEq

/-- The opening brace character. -/
def braceL : Char := Char.ofNat 123

/-- The closing brace character. -/
def braceR : Char := Char.ofNat 125

/-- `str(b)` for a Python bool. -/
def pyBool (b : Bool) : String :=
  if b then "True" else "False"

/-- The widget's configuration surface (`Redshift.defaults` plus the
attributes set by `add_defaults`).  Numeric options are carried as their
`str()` rendering (see the module docstring). -/
structure Config where
  brightness : String
  disabled_txt : String
  enabled_txt : String
  gamma_red : String
  gamma_blue : String
  gamma_green : String
  temperature : String
deriving DecidableEq

/-- The default configuration from `Redshift.defaults`: brightness `1.0`,
temperature `1700`, all gamma components `1.0`, and the two nerd-font
glyphs for disabled / enabled text. -/
def defaultConfig : Config :=
  { brightness := "1.0"
    disabled_txt := "󱠃"
    enabled_txt := "󰛨"
    gamma_red := "1.0"
    gamma_blue := "1.0"
    gamma_green := "1.0"
    temperature := "1700" }

/-- The keyword arguments passed by `Redshift._format_first_text` to
`str.format`: `brightness`, `temperature`, `gamma_red`, `gamma_green`,
`gamma_blue`, `is_enabled`. -/
def fieldLookup (cfg : Config) (enabled : Bool) (name : String) : Option String :=
  if name = "brightness" then some cfg.brightness
  else if name = "temperature" then some cfg.temperature
  else if name = "gamma_red" then some cfg.gamma_red
  else if name = "gamma_green" then some cfg.gamma_green
  else if name = "gamma_blue" then some cfg.gamma_blue
  else if name = "is_enabled" then some (pyBool enabled)
  else none

/-- Parser state of the Python `str.format` scan: plain literal text, a
just-seen single opening or closing brace, or the inside of a
replacement field (name characters accumulated in reverse). -/
inductive FmtMode where
  | literal
  | afterLBrace
  | afterRBrace
  | field (acc : List Char)

/-- One pass of Python `str.format` over the template's characters.
Doubled braces produce literal braces; a complete replacement field is
looked up, raising `KeyError` when the name is unknown; an unmatched
single brace raises `ValueError`, as does a field left open at the end
of the template. -/
def fmtGo (look : String → Option String) : List Char → FmtMode → Except PyError String
  | [], FmtMode.literal => Except.ok ""
  | [], FmtMode.afterLBrace => Except.error PyError.valueError
  | [], FmtMode.afterRBrace => Except.error PyError.valueError
  | [], FmtMode.field _ => Except.error PyError.valueError
  | c :: rest, FmtMode.literal =>
    if c = braceL then fmtGo look rest FmtMode.afterLBrace
    else if c = braceR then fmtGo look rest FmtMode.afterRBrace
    else (fmtGo look rest FmtMode.literal).map (fun t => String.mk [c] ++ t)
  | c :: rest, FmtMode.afterLBrace =>
    if c = braceL then (fmtGo look rest FmtMode.literal).map (fun t => String.mk [braceL] ++ t)
    else if c = braceR then
      match look "" with
      | some v => (fmtGo look rest FmtMode.literal).map (fun t => v ++ t)
      | none => Except.error (PyError.keyError "")
    else fmtGo look rest (FmtMode.field [c])
  | c :: rest, FmtMode.afterRBrace =>
    if c = braceR then (fmtGo look rest FmtMode.literal).map (fun t => String.mk [braceR] ++ t)
    else Except.error PyError.valueError
  | c :: rest, FmtMode.field acc =>
    if c = braceR then
      match look (String.mk acc.reverse) with
      | some v => (fmtGo look rest FmtMode.literal).map (fun t => v ++ t)
      | none => Except.error (PyError.keyError (String.mk acc.reverse))
    else fmtGo look rest (FmtMode.field (c :: acc))

/-- `txt.format(**kwargs)` with the lookup table `look`. -/
def pyFormat (look : String → Option String) (txt : String) : Except PyError String :=
  fmtGo look txt.data FmtMode.literal

/-- `Redshift._format_first_text`: formats a template with the six
parameters allowed (`brightness`, `temperature`, `gamma_red`,
`gamma_green`, `gamma_blue`, `is_enabled`). -/
def _format_first_text (cfg : Config) (enabled : Bool) (txt : String) : Except PyError String :=
  pyFormat (fieldLookup cfg enabled) txt

/-- A value stored in the widget's `_lines` list: a plain string, a
`GammaGroup`, or (for the dynamically-typed fallback of `format_object`)
any other Python value. -/
inductive PyObj where
  | str (s : String)
  | gammaGroup (g : GammaGroup)
  | other
deriving DecidableEq

/-- `Redshift.format_object`: `repr` of a `GammaGroup`, a string itself,
and the empty string (after a logged warning) for any other value. -/
def format_object (obj : PyObj) : String :=
  match obj with
  | PyObj.gammaGroup g => g.pyRepr
  | PyObj.str s => s
  | PyObj.other => ""

/-- An effect the widget performs that is visible to the host bar or the
operating system: a driver invocation (which spawns the external
process), an assignment to the displayed text `self.text`, or a
`self.bar.draw()` redraw request. -/
inductive Event where
  | driverEnable (temperature : String) (gamma : GammaGroup) (brightness : String)
  | driverReset
  | setText (t : String)
  | drawBar
deriving DecidableEq

/-- The mutable state of a `Redshift` widget instance: its configuration,
`is_enabled`, `_line_index`, `_lines`, and the displayed `text`. -/
structure WidgetState where
  cfg : Config
  is_enabled : Bool
  line_index : Int
  lines : List PyObj
  text : String
deriving DecidableEq

/-- The state right after `Redshift.__init__`: disabled, cursor at 0,
empty `_lines`, empty text (from the `_TextBox` base). -/
def initState (cfg : Config) : WidgetState :=
  { cfg := cfg, is_enabled := false, line_index := 0, lines := [], text := "" }

/-- Python list indexing `l[i]` (negative indices count from the end);
`none` models an `IndexError`. -/
def pyIndex {α : Type} (l : List α) (i : Int) : Option α :=
  if 0 ≤ i then l.get? i.toNat
  else if 0 ≤ i + l.length then l.get? (i + l.length).toNat
  else none

/-- The fixed error string set by `Redshift._render_error_text`. -/
def error_text : String := "Redshift widget error"

/-- `Redshift._render_error_text`: sets `self.text` to the fixed error
string and requests a bar redraw. -/
def _render_error_text (s : WidgetState) : WidgetState × List Event :=
  ({ s with text := error_text }, [Event.setText error_text, Event.drawBar])

/-- The four entries of `_lines` built by `Redshift._set_lines`, given
the already-formatted first entry. -/
def linesOf (cfg : Config) (first_text : String) : List PyObj :=
  [PyObj.str first_text,
   PyObj.str ("Brightness: " ++ cfg.brightness),
   PyObj.str ("Temperature: " ++ cfg.temperature),
   PyObj.gammaGroup { red := cfg.gamma_red, green := cfg.gamma_green, blue := cfg.gamma_blue }]

/-- `Redshift._set_lines`: rebuilds `_lines` as the four entries
`[first-text, "Brightness: ...", "Temperature: ...", GammaGroup]`, where
the first entry is the enabled or disabled template formatted by
`_format_first_text` (which may raise). -/
def _set_lines (s : WidgetState) : Except PyError WidgetState :=
  (_format_first_text s.cfg s.is_enabled
      (if s.is_enabled then s.cfg.enabled_txt else s.cfg.disabled_txt)).map
    (fun first_text => { s with lines := linesOf s.cfg first_text })

/-- The rendering of the line at (already-wrapped) cursor position `j` of
a freshly built line list. -/
def lineTextAt (cfg : Config) (first_text : String) (j : Int) : String :=
  ((pyIndex (linesOf cfg first_text) j).map format_object).getD ""

/-- `Redshift._set_text`: at cursor index 0 formats the enabled/disabled
template (which may raise `KeyError`/`ValueError`); at any other index
formats `self._lines[self._line_index]` (which may raise `IndexError`). -/
def _set_text (s : WidgetState) : Except PyError (WidgetState × List Event) :=
  if s.line_index = 0 then
    (_format_first_text s.cfg s.is_enabled
        (if s.is_enabled then s.cfg.enabled_txt else s.cfg.disabled_txt)).map
      (fun t => ({ s with text := t }, [Event.setText t]))
  else
    match pyIndex s.lines s.line_index with
    | some obj =>
      Except.ok ({ s with text := format_object obj }, [Event.setText (format_object obj)])
    | none => Except.error PyError.indexError

/-- Modelled from the spec: `_TextBox.update` (inherited from the host
framework's text-box base class, whose source is not part of this
fragment) sets the widget's displayed text to the given string; the spec
describes the widget's output as "a single line of display text plus a
redraw request". -/
def update (s : WidgetState) (t : String) : WidgetState × List Event :=
  ({ s with text := t }, [Event.setText t])

/-- `Redshift.show_line`: returns silently when `_lines` is empty,
otherwise formats `self._lines[self._line_index]` and hands it to
`update`. -/
def show_line (s : WidgetState) : Except PyError (WidgetState × List Event) :=
  if s.lines = [] then Except.ok (s, [])
  else
    match pyIndex s.lines s.line_index with
    | some obj => Except.ok (update s (format_object obj))
    | none => Except.error PyError.indexError

/-- `Redshift.reset_redshift`: invokes `RedshiftDriver.reset` and, when
it reports failure, renders the error text. -/
def reset_redshift (o : ProcOutcome) (s : WidgetState) : WidgetState × List Event :=
  let success_code := RedshiftDriver.reset o
  if success_code = 0 then
    let r := _render_error_text s
    (r.1, Event.driverReset :: r.2)
  else (s, [Event.driverReset])

/-- `Redshift.enable_redshift`: builds a `GammaGroup` from the
configuration, invokes `RedshiftDriver.enable` with the configured
temperature and brightness, and renders the error text on failure. -/
def enable_redshift (o : ProcOutcome) (s : WidgetState) : WidgetState × List Event :=
  let gamma_val : GammaGroup :=
    { red := s.cfg.gamma_red, green := s.cfg.gamma_green, blue := s.cfg.gamma_blue }
  let success_code := RedshiftDriver.enable s.cfg.temperature gamma_val s.cfg.brightness o
  let callEvent := Event.driverEnable s.cfg.temperature gamma_val s.cfg.brightness
  if success_code = 0 then
    let r := _render_error_text s
    (r.1, callEvent :: r.2)
  else (s, [callEvent])

/-- `Redshift.click`: returns immediately unless the cursor is at index
0; otherwise calls `reset_redshift` when enabled and `enable_redshift`
when disabled, then unconditionally negates `is_enabled`, re-renders the
first line via `_set_text`, and requests a bar redraw.  The parameter `o`
is the outcome of the (single) driver invocation the handler makes. -/
def click (o : ProcOutcome) (s : WidgetState) : Except PyError (WidgetState × List Event) :=
  if s.line_index ≠ 0 then Except.ok (s, [])
  else
    let r := if s.is_enabled then reset_redshift o s else enable_redshift o s
    let s2 := { r.1 with is_enabled := !r.1.is_enabled }
    (_set_text s2).map (fun p => (p.1, r.2 ++ p.2 ++ [Event.drawBar]))

/-- `Redshift._scroll`: rebuilds `_lines`, steps `_line_index` by `step`
modulo `len(self._lines)` (Python `%`, i.e. `Int.emod`), and shows the
line at the new cursor. -/
def _scroll (step : Int) (s : WidgetState) : Except PyError (WidgetState × List Event) :=
  (_set_lines s).bind
    (fun s1 =>
      show_line { s1 with line_index := (s1.line_index + step).emod s1.lines.length })

/-- `Redshift.scroll_up`: `self._scroll(1)`. -/
def scroll_up (s : WidgetState) : Except PyError (WidgetState × List Event) :=
  _scroll 1 s

/-- `Redshift.scroll_down`: `self._scroll(-1)`. -/
def scroll_down (s : WidgetState) : Except PyError (WidgetState × List Event) :=
  _scroll (-1) s

/-- `Redshift._configure` (the widget-specific part, after the
`_TextBox._configure` call into the host framework): resets redshift to
a known baseline state, builds the line list, and renders the text.  The
parameter `o` is the outcome of the reset's driver invocation. -/
def _configure (o : ProcOutcome) (s : WidgetState) : Except PyError (WidgetState × List Event) :=
  let r := reset_redshift o s
  (_set_lines r.1).bind
    (fun s2 => (_set_text s2).map (fun p => (p.1, r.2 ++ p.2)))

/-- Whether an `Except` computation finished without raising. -/
def exceptOk {ε α : Type} (r : Except ε α) : Bool :=
  match r with
  | Except.ok _ => true
  | Except.error _ => false

/-- The configuration's two template strings format successfully (for
both values of `is_enabled`): braces are balanced and every replacement
field is one of the six supported names. -/
def templatesOk (cfg : Config) : Bool :=
  exceptOk (_format_first_text cfg true cfg.enabled_txt) &&
  exceptOk (_format_first_text cfg false cfg.enabled_txt) &&
  exceptOk (_format_first_text cfg true cfg.disabled_txt) &&
  exceptOk (_format_first_text cfg false cfg.disabled_txt)

/-- The rendering of the display line currently under the cursor, from a
freshly rebuilt line list (`none` when the template fails to format).
This is the text a fully rendered widget displays. -/
def currentLineText (s : WidgetState) : Option String :=
  (_set_lines s).toOption.map
    (fun s1 => ((pyIndex s1.lines s.line_index).map format_object).getD "")

/-- Run a sequence of scroll events (`true` = scroll up, `false` = scroll
down) through the widget, left to right. -/
def runScrolls : List Bool → WidgetState → Except PyError WidgetState
  | [], s => Except.ok s
  | b :: rest, s =>
    (if b then scroll_up s else scroll_down s).bind (fun p => runScrolls rest p.1)

/-- The net cursor displacement of a scroll sequence: number of scroll-ups
minus number of scroll-downs. -/
def netStep : List Bool → Int
  | [] => 0
  | b :: rest => (if b then 1 else -1) + netStep rest

/-- The displayed texts observed after each of `n` consecutive scroll-up
operations. -/
def scrollUpTexts : Nat → WidgetState → Except PyError (List String)
  | 0, _ => Except.ok []
  | n + 1, s =>
    (scroll_up s).bind
      (fun p => (scrollUpTexts n p.1).map (fun ts => p.1.text :: ts))

/-- The default widget right after `_configure` succeeded: disabled,
cursor at 0, the four default lines built, the disabled glyph displayed. -/
def defaultRendered : WidgetState :=
  { cfg := defaultConfig
    is_enabled := false
    line_index := 0
    lines :=
      [PyObj.str "󱠃",
       PyObj.str "Brightness: 1.0",
       PyObj.str "Temperature: 1700",
       PyObj.gammaGroup { red := "1.0", green := "1.0", blue := "1.0" }]
    text := "󱠃" }

/-- A configuration whose disabled-text template names an unsupported
replacement field (Python: `"\x7bfoo\x7d"`). -/
def badConfig : Config :=
  { defaultConfig with disabled_txt := String.mk [braceL] ++ "foo" ++ String.mk [braceR] }

/-- The widget-state invariant maintained by the event handlers: the
templates format, and either the widget is pre-`_configure` (no lines,
cursor 0) or the four lines are built and the cursor is a valid index. -/
def stateOk (s : WidgetState) : Bool :=
  templatesOk s.cfg &&
  ((s.lines.isEmpty && decide (s.line_index = 0)) ||
   (decide (s.lines.length = 4) && decide (0 ≤ s.line_index) && decide (s.line_index < 4)))

/-- An operation result is acceptable when it did not raise and its
resulting state again satisfies `stateOk`. -/
def opOk (r : Except PyError (WidgetState × List Event)) : Bool :=
  match r with
  | Except.ok p => stateOk p.1
  | Except.error _ => false

lemma RedshiftDriver.enable_eq (temperature : String) (gamma : GammaGroup)
    (brightness : String) (o : ProcOutcome) :
    RedshiftDriver.enable temperature gamma brightness o
      = if o = ProcOutcome.exit 0 then 1 else 0 := by
  cases o with
  | exit c =>
    cases c <;> simp [RedshiftDriver.enable, subprocess_run_check]
  | raise => simp [RedshiftDriver.enable, subprocess_run_check]

lemma RedshiftDriver.reset_eq (o : ProcOutcome) :
    RedshiftDriver.reset o = if o = ProcOutcome.exit 0 then 1 else 0 := by
  cases o with
  | exit c =>
    cases c <;> simp [RedshiftDriver.reset, subprocess_run_check]
  | raise => simp [RedshiftDriver.reset, subprocess_run_check]

lemma exceptOk_iff {ε α : Type} (r : Except ε α) :
    exceptOk r = true ↔ ∃ a, r = Except.ok a := by
  cases r <;> simp [exceptOk]

/-- If the two templates check out, formatting the template selected by
any enabled-flag value succeeds. -/
lemma templatesOk_format (cfg : Config) (b : Bool) (hwf : templatesOk cfg = true) :
    ∃ t, _format_first_text cfg b (if b then cfg.enabled_txt else cfg.disabled_txt)
      = Except.ok t := by
  simp only [templatesOk, Bool.and_eq_true, exceptOk_iff] at hwf
  cases b <;> simp [hwf.1, hwf.2]

lemma _set_lines_eq (s : WidgetState) (ft : String)
    (hfmt : _format_first_text s.cfg s.is_enabled
        (if s.is_enabled then s.cfg.enabled_txt else s.cfg.disabled_txt) = Except.ok ft) :
    _set_lines s = Except.ok { s with lines := linesOf s.cfg ft } := by
  simp [_set_lines, hfmt, Except.map]

lemma _set_lines_ok_extract (s s1 : WidgetState) (h : _set_lines s = Except.ok s1) :
    ∃ ft, _format_first_text s.cfg s.is_enabled
        (if s.is_enabled then s.cfg.enabled_txt else s.cfg.disabled_txt) = Except.ok ft ∧
      s1 = { s with lines := linesOf s.cfg ft } := by
  unfold _set_lines at h
  cases hf : _format_first_text s.cfg s.is_enabled
      (if s.is_enabled then s.cfg.enabled_txt else s.cfg.disabled_txt) with
  | ok ft =>
    rw [hf] at h
    simp only [Except.map, Except.ok.injEq] at h
    exact ⟨ft, rfl, h.symm⟩
  | error e =>
    rw [hf] at h
    simp [Except.map] at h

lemma linesOf_length (cfg : Config) (ft : String) : (linesOf cfg ft).length = 4 := rfl

lemma pyIndex_linesOf (cfg : Config) (ft : String) (j : Int)
    (h0 : 0 ≤ j) (h1 : j < 4) :
    pyIndex (linesOf cfg ft) j
      = some ((linesOf cfg ft).getD j.toNat (PyObj.str "")) := by
  have : j = 0 ∨ j = 1 ∨ j = 2 ∨ j = 3 := by omega
  rcases this with h | h | h | h <;> subst h <;> rfl

lemma lineTextAt_eq (cfg : Config) (ft : String) (j : Int) (h0 : 0 ≤ j) (h1 : j < 4) :
    lineTextAt cfg ft j = format_object ((linesOf cfg ft).getD j.toNat (PyObj.str "")) := by
  simp [lineTextAt, pyIndex_linesOf cfg ft j h0 h1]

/-- Complete description of one `_scroll` step on a widget whose first
template formats to `ft`. -/
lemma _scroll_spec (step : Int) (s : WidgetState) (ft : String)
    (hfmt : _format_first_text s.cfg s.is_enabled
        (if s.is_enabled then s.cfg.enabled_txt else s.cfg.disabled_txt) = Except.ok ft) :
    _scroll step s = Except.ok
      ({ s with lines := linesOf s.cfg ft,
                line_index := (s.line_index + step).emod 4,
                text := lineTextAt s.cfg ft ((s.line_index + step).emod 4) },
        [Event.setText (lineTextAt s.cfg ft ((s.line_index + step).emod 4))]) := by
  have h0 : 0 ≤ (s.line_index + step).emod 4 := Int.emod_nonneg _ (by norm_num)
  have h1 : (s.line_index + step).emod 4 < 4 := Int.emod_lt_of_pos _ (by norm_num)
  rw [_scroll, _set_lines_eq s ft hfmt]
  simp only [Except.bind, linesOf_length, Nat.cast_ofNat]
  rw [show_line]
  rw [if_neg (by simp [linesOf])]
  rw [pyIndex_linesOf s.cfg ft _ h0 h1]
  simp [update, lineTextAt_eq s.cfg ft _ h0 h1]

lemma _set_text_at_zero (s : WidgetState) (t : String) (h0 : s.line_index = 0)
    (hfmt : _format_first_text s.cfg s.is_enabled
        (if s.is_enabled then s.cfg.enabled_txt else s.cfg.disabled_txt) = Except.ok t) :
    _set_text s = Except.ok ({ s with text := t }, [Event.setText t]) := by
  simp [_set_text, h0, hfmt, Except.map]

/-- The driver phase of `click` (reset when enabled, enable when
disabled) only ever touches the displayed text. -/
lemma click_driver_phase_state (o : ProcOutcome) (s : WidgetState) :
    (if s.is_enabled then reset_redshift o s else enable_redshift o s).1
      = if o = ProcOutcome.exit 0 then s else { s with text := error_text } := by
  cases hb : s.is_enabled <;>
    by_cases ho : o = ProcOutcome.exit 0 <;>
      simp [reset_redshift, enable_redshift, _render_error_text,
        RedshiftDriver.reset_eq, RedshiftDriver.enable_eq, ho, hb]

/-- The events emitted by the driver phase of `click`: the driver call,
then on failure the error-text render and its redraw request. -/
lemma click_driver_phase_events (o : ProcOutcome) (s : WidgetState) :
    (if s.is_enabled then reset_redshift o s else enable_redshift o s).2
      = (if s.is_enabled then Event.driverReset
         else Event.driverEnable s.cfg.temperature
            { red := s.cfg.gamma_red, green := s.cfg.gamma_green, blue := s.cfg.gamma_blue }
            s.cfg.brightness) ::
        (if o = ProcOutcome.exit 0 then [] else [Event.setText error_text, Event.drawBar]) := by
  cases hb : s.is_enabled <;>
    by_cases ho : o = ProcOutcome.exit 0 <;>
      simp [reset_redshift, enable_redshift, _render_error_text,
        RedshiftDriver.reset_eq, RedshiftDriver.enable_eq, ho, hb]

/-- Complete description of a `click` at cursor index 0 whose
newly-selected template formats to `t`. -/
lemma click_at_zero_spec (o : ProcOutcome) (s : WidgetState) (t : String)
    (h0 : s.line_index = 0)
    (hfmt : _format_first_text s.cfg (!s.is_enabled)
        (if !s.is_enabled then s.cfg.enabled_txt else s.cfg.disabled_txt) = Except.ok t) :
    click o s = Except.ok
      ({ s with is_enabled := !s.is_enabled, text := t },
        ((if s.is_enabled then Event.driverReset
          else Event.driverEnable s.cfg.temperature
             { red := s.cfg.gamma_red, green := s.cfg.gamma_green, blue := s.cfg.gamma_blue }
             s.cfg.brightness) ::
         (if o = ProcOutcome.exit 0 then [] else [Event.setText error_text, Event.drawBar])) ++
        [Event.setText t, Event.drawBar]) := by
  rw [click, if_neg (by simp [h0])]
  cases hb : s.is_enabled <;> by_cases ho : o = ProcOutcome.exit 0 <;>
    simp [hb] at hfmt <;>
    simp [reset_redshift, enable_redshift, _render_error_text, RedshiftDriver.reset_eq,
      RedshiftDriver.enable_eq, ho, hb, _set_text, h0, hfmt, Except.map]

lemma emod4_add_emod4_left (x y z : Int) :
    ((x + y).emod 4 + z).emod 4 = (x + (y + z)).emod 4 := by
  show ((x + y) % 4 + z) % 4 = (x + (y + z)) % 4
  rw [Int.emod_add_emod, add_assoc]

lemma currentLineText_eq (s : WidgetState) (ft : String)
    (hfmt : _format_first_text s.cfg s.is_enabled
        (if s.is_enabled then s.cfg.enabled_txt else s.cfg.disabled_txt) = Except.ok ft) :
    currentLineText s = some (lineTextAt s.cfg ft s.line_index) := by
  rw [currentLineText, _set_lines_eq s ft hfmt]
  simp [lineTextAt, Except.toOption]

lemma currentLineText_some_extract (s : WidgetState) (v : String)
    (h : currentLineText s = some v) :
    ∃ ft, _format_first_text s.cfg s.is_enabled
        (if s.is_enabled then s.cfg.enabled_txt else s.cfg.disabled_txt) = Except.ok ft ∧
      v = lineTextAt s.cfg ft s.line_index := by
  cases hf : _format_first_text s.cfg s.is_enabled
      (if s.is_enabled then s.cfg.enabled_txt else s.cfg.disabled_txt) with
  | ok ft =>
    rw [currentLineText_eq s ft hf] at h
    exact ⟨ft, rfl, (Option.some_injective _ h).symm⟩
  | error e =>
    rw [currentLineText, _set_lines] at h
    rw [hf] at h
    simp [Except.map, Except.toOption] at h

/-- Complete description of a nonempty scroll sequence: the cursor moves
by the net displacement modulo 4 and the line there is displayed. -/
lemma runScrolls_spec (seq : List Bool) (s : WidgetState) (ft : String)
    (hfmt : _format_first_text s.cfg s.is_enabled
        (if s.is_enabled then s.cfg.enabled_txt else s.cfg.disabled_txt) = Except.ok ft)
    (hne : seq ≠ []) :
    runScrolls seq s = Except.ok
      { s with lines := linesOf s.cfg ft,
               line_index := (s.line_index + netStep seq).emod 4,
               text := lineTextAt s.cfg ft ((s.line_index + netStep seq).emod 4) } := by
  induction seq generalizing s with
  | nil => exact absurd rfl hne
  | cons b rest ih =>
    have hstep : (if b then scroll_up s else scroll_down s)
        = _scroll (if b then 1 else -1) s := by
      cases b <;> simp [scroll_up, scroll_down]
    cases rest with
    | nil =>
      rw [runScrolls, hstep, _scroll_spec _ s ft hfmt]
      simp [runScrolls, netStep, Except.bind]
    | cons b2 rest2 =>
      rw [runScrolls, hstep, _scroll_spec _ s ft hfmt]
      rw [Except.bind]
      rw [ih _ (by simpa using hfmt) (by simp)]
      have harith := emod4_add_emod4_left s.line_index (if b then 1 else -1) (netStep (b2 :: rest2))
      have hnet : netStep (b :: b2 :: rest2) = (if b then (1 : Int) else -1) + netStep (b2 :: rest2) := rfl
      rw [hnet, ← harith]

lemma pyIndex_get {α : Type} (l : List α) (i : Int) (h0 : 0 ≤ i) :
    pyIndex l i = l.get? i.toNat := by
  rw [pyIndex, if_pos h0]

lemma _set_text_ok_of (s : WidgetState) (hwf : templatesOk s.cfg = true)
    (hbound : (0 ≤ s.line_index ∧ s.line_index < s.lines.length) ∨ s.line_index = 0) :
    ∃ t, _set_text s = Except.ok ({ s with text := t }, [Event.setText t]) := by
  by_cases h0 : s.line_index = 0
  · obtain ⟨t, ht⟩ := templatesOk_format s.cfg s.is_enabled hwf
    exact ⟨t, _set_text_at_zero s t h0 ht⟩
  · have hb : 0 ≤ s.line_index ∧ s.line_index < s.lines.length := by
      rcases hbound with hb | h
      · exact hb
      · exact absurd h h0
    have hn : s.line_index.toNat < s.lines.length := by omega
    refine ⟨format_object (s.lines.get ⟨s.line_index.toNat, hn⟩), ?_⟩
    rw [_set_text, if_neg h0, pyIndex_get s.lines s.line_index hb.1, List.get?_eq_get hn]

lemma stateOk_of (s : WidgetState) (hwf : templatesOk s.cfg = true)
    (h : (s.lines = [] ∧ s.line_index = 0) ∨
      (s.lines.length = 4 ∧ 0 ≤ s.line_index ∧ s.line_index < 4)) :
    stateOk s = true := by
  rcases h with ⟨he, hi⟩ | ⟨hl, hi0, hi1⟩
  · simp [stateOk, hwf, he, hi]
  · simp [stateOk, hwf, hl, hi0, hi1]

lemma stateOk_elim (s : WidgetState) (hs : stateOk s = true) :
    templatesOk s.cfg = true ∧
      ((s.lines = [] ∧ s.line_index = 0) ∨
       (s.lines.length = 4 ∧ 0 ≤ s.line_index ∧ s.line_index < 4)) := by
  simp only [stateOk, Bool.and_eq_true, Bool.or_eq_true, decide_eq_true_eq,
    List.isEmpty_iff] at hs
  refine ⟨hs.1, ?_⟩
  tauto

lemma reset_redshift_fst (o : ProcOutcome) (s : WidgetState) :
    (reset_redshift o s).1
      = if o = ProcOutcome.exit 0 then s else { s with text := error_text } := by
  by_cases ho : o = ProcOutcome.exit 0 <;>
    simp [reset_redshift, _render_error_text, RedshiftDriver.reset_eq, ho]

lemma _scroll_ok_bounds (step : Int) (s s' : WidgetState) (tr : List Event)
    (h : _scroll step s = Except.ok (s', tr)) :
    0 ≤ s'.line_index ∧ s'.line_index < 4 ∧ s'.lines.length = 4 := by
  cases hf : _format_first_text s.cfg s.is_enabled
      (if s.is_enabled then s.cfg.enabled_txt else s.cfg.disabled_txt) with
  | ok ft =>
    rw [_scroll_spec step s ft hf] at h
    simp only [Except.ok.injEq, Prod.mk.injEq] at h
    rw [← h.1]
    refine ⟨?_, ?_, ?_⟩
    · simpa using Int.emod_nonneg (s.line_index + step) (by norm_num)
    · simpa using Int.emod_lt_of_pos (s.line_index + step) (by norm_num)
    · simp [linesOf]
  | error e =>
    rw [_scroll, _set_lines] at h
    rw [hf] at h
    simp [Except.map, Except.bind] at h

lemma click_at_zero_error (o : ProcOutcome) (s : WidgetState) (e : PyError)
    (h0 : s.line_index = 0)
    (hfmt : _format_first_text s.cfg (!s.is_enabled)
        (if !s.is_enabled then s.cfg.enabled_txt else s.cfg.disabled_txt) = Except.error e) :
    click o s = Except.error e := by
  rw [click, if_neg (by simp [h0])]
  cases hb : s.is_enabled <;> by_cases ho : o = ProcOutcome.exit 0 <;>
    simp [hb] at hfmt <;>
    simp [reset_redshift, enable_redshift, _render_error_text, RedshiftDriver.reset_eq,
      RedshiftDriver.enable_eq, ho, hb, _set_text, h0, hfmt, Except.map]

/-- C1: for every primary click at cursor index 0, when the handler
completes the enabled flag has been flipped to its negation, whatever
outcome the driver's apply/reset invocation reports. -/
theorem click_flips_enabled_regardless_of_driver (o : ProcOutcome) (s : WidgetState)
    (h0 : s.line_index = 0) (hwf : templatesOk s.cfg = true) :
    (click o s).toOption.map (fun p => p.1.is_enabled) = some (!s.is_enabled) := by
  obtain ⟨t, ht⟩ := templatesOk_format s.cfg (!s.is_enabled) hwf
  rw [click_at_zero_spec o s t h0 ht]
  simp [Except.toOption]

/-- Witness for C1: clicking the freshly configured default widget while
the driver invocation raises still flips the flag from disabled to
enabled. -/
theorem click_flips_enabled_regardless_of_driver_witness :
    (click ProcOutcome.raise defaultRendered).toOption.map (fun p => p.1.is_enabled)
      = some (!defaultRendered.is_enabled) :=
  click_flips_enabled_regardless_of_driver ProcOutcome.raise defaultRendered
    (by decide) (by decide)

/-- C2: both driver operations return the success value 1 exactly when
the external process exits with code zero and the failure value 0 on any
invocation error; both are total functions into `Int` (never
propagating an exception), as the source's `try/except/finally` returns
`success_code` on every path. -/
theorem driver_success_iff_zero_exit (temperature : String) (gamma : GammaGroup)
    (brightness : String) (o : ProcOutcome) :
    RedshiftDriver.enable temperature gamma brightness o
        = (if o = ProcOutcome.exit 0 then 1 else 0) ∧
      RedshiftDriver.reset o = (if o = ProcOutcome.exit 0 then 1 else 0) :=
  ⟨RedshiftDriver.enable_eq temperature gamma brightness o, RedshiftDriver.reset_eq o⟩

/-- C3: after every completed scroll-up or scroll-down, from any widget
state, the cursor index is a valid index into the just-rebuilt line
list: an integer in `[0, 4)`, the list having exactly 4 entries. -/
theorem scroll_cursor_index_valid (s s' : WidgetState) (tr : List Event)
    (h : scroll_up s = Except.ok (s', tr) ∨ scroll_down s = Except.ok (s', tr)) :
    0 ≤ s'.line_index ∧ s'.line_index < 4 ∧ s'.lines.length = 4 := by
  rcases h with h | h
  · exact _scroll_ok_bounds 1 s s' tr h
  · exact _scroll_ok_bounds (-1) s s' tr h

/-- Witness for C3: one scroll-up on the configured default widget lands
on cursor 1 over a 4-entry list. -/
theorem scroll_cursor_index_valid_witness :
    0 ≤ ({ defaultRendered with line_index := 1, text := "Brightness: 1.0" } : WidgetState).line_index ∧
      ({ defaultRendered with line_index := 1, text := "Brightness: 1.0" } : WidgetState).line_index < 4 ∧
      ({ defaultRendered with line_index := 1, text := "Brightness: 1.0" } : WidgetState).lines.length = 4 :=
  scroll_cursor_index_valid defaultRendered
    { defaultRendered with line_index := 1, text := "Brightness: 1.0" }
    [Event.setText "Brightness: 1.0"] (Or.inl (by decide))

/-- C4: a primary click while the cursor is not at index 0 changes
nothing: the handler returns the state unchanged (text and enabled flag
included) and emits no event, so no driver call and no process spawn. -/
theorem click_off_status_line_noop (o : ProcOutcome) (s : WidgetState)
    (h : s.line_index ≠ 0) :
    click o s = Except.ok (s, []) := by
  rw [click, if_pos h]

/-- Witness for C4: clicking the default widget while it displays line 1
does nothing even though the driver would have failed. -/
theorem click_off_status_line_noop_witness :
    click ProcOutcome.raise ({ defaultRendered with line_index := 1 } : WidgetState)
      = Except.ok ({ defaultRendered with line_index := 1 }, []) :=
  click_off_status_line_noop ProcOutcome.raise
    { defaultRendered with line_index := 1 } (by decide)

/-- C5: from every cursor index in `[0, 4)`, any fixed configuration and
enabled state, a scroll-up followed by a scroll-down restores the
displayed text to its pre-scroll value. -/
theorem scroll_up_down_inverse (s : WidgetState)
    (h0 : 0 ≤ s.line_index) (h1 : s.line_index < 4)
    (hr : currentLineText s = some s.text) :
    (runScrolls [true, false] s).toOption.map WidgetState.text = some s.text := by
  obtain ⟨ft, hfmt, htext⟩ := currentLineText_some_extract s s.text hr
  rw [runScrolls_spec [true, false] s ft hfmt (by simp)]
  have hidx : (s.line_index + netStep [true, false]).emod 4 = s.line_index := by
    have hn : netStep [true, false] = 0 := rfl
    rw [hn, add_zero]
    exact Int.emod_eq_of_lt h0 h1
  simp only [Except.toOption]
  rw [hidx, htext]
  rfl

/-- Witness for C5: up-then-down on the configured default widget leaves
the disabled glyph displayed. -/
theorem scroll_up_down_inverse_witness :
    (runScrolls [true, false] defaultRendered).toOption.map WidgetState.text
      = some defaultRendered.text :=
  scroll_up_down_inverse defaultRendered (by decide) (by decide) (by decide)

/-- C6 counterexample: the scroll sequence up, up, up, down has length
4 = 4·1 and starts from cursor index 0 of the rendered default widget,
yet afterwards the displayed line is "Temperature: 1700", not the
original disabled glyph: a 4k-length mixed sequence need not cycle. -/
theorem scroll_length4_counterexample :
    [true, true, true, false].length = 4 * 1 ∧
      defaultRendered.line_index = 0 ∧
      currentLineText defaultRendered = some defaultRendered.text ∧
      (runScrolls [true, true, true, false] defaultRendered).toOption.map WidgetState.text
        = some "Temperature: 1700" ∧
      ¬ (runScrolls [true, true, true, false] defaultRendered).toOption.map WidgetState.text
          = some defaultRendered.text := by
  decide

/-- C6 amended: for every scroll sequence whose net displacement
(scroll-ups minus scroll-downs) is a multiple of 4 — in particular every
single-direction sequence of length 4k — starting from cursor index 0 of
a rendered widget, the displayed line afterwards equals the one before. -/
theorem scroll_net_multiple_of_four_cycle (seq : List Bool) (s : WidgetState)
    (h0 : s.line_index = 0) (hr : currentLineText s = some s.text)
    (hnet : (4 : Int) ∣ netStep seq) :
    (runScrolls seq s).toOption.map WidgetState.text = some s.text := by
  cases seq with
  | nil => simp [runScrolls, Except.toOption]
  | cons b rest =>
    obtain ⟨ft, hfmt, htext⟩ := currentLineText_some_extract s s.text hr
    rw [runScrolls_spec (b :: rest) s ft hfmt (by simp)]
    have hidx : (s.line_index + netStep (b :: rest)).emod 4 = 0 := by
      rw [h0, zero_add]
      exact Int.emod_eq_zero_of_dvd hnet
    simp only [Except.toOption]
    rw [hidx, htext, h0]
    rfl

/-- Witness for C6 amended: four scroll-ups on the configured default
widget bring the disabled glyph back. -/
theorem scroll_net_multiple_of_four_cycle_witness :
    (runScrolls [true, true, true, true] defaultRendered).toOption.map WidgetState.text
      = some defaultRendered.text :=
  scroll_net_multiple_of_four_cycle [true, true, true, true] defaultRendered
    (by decide) (by decide) (by decide)

/-- C7: under the default configuration, starting disabled at cursor
index 0 right after configuration, four consecutive scroll-ups display
"Brightness: 1.0", "Temperature: 1700", "Gamma: 1.0:1.0:1.0", and then
the disabled glyph again. -/
theorem default_config_scroll_up_texts :
    (_configure (ProcOutcome.exit 0) (initState defaultConfig)).bind
        (fun p => scrollUpTexts 4 p.1)
      = Except.ok ["Brightness: 1.0", "Temperature: 1700", "Gamma: 1.0:1.0:1.0", "󱠃"] := by
  decide

/-- C8: whenever a primary click at cursor index 0 makes a driver
apply/reset call that fails, the handler's event trace contains the
assignment of the fixed error string "Redshift widget error" to the
displayed text immediately followed by a redraw request (from
`_render_error_text`). -/
theorem click_driver_failure_renders_error (o : ProcOutcome) (s s' : WidgetState)
    (tr : List Event) (h0 : s.line_index = 0) (hfail : o ≠ ProcOutcome.exit 0)
    (hres : click o s = Except.ok (s', tr)) :
    List.IsInfix [Event.setText error_text, Event.drawBar] tr := by
  cases hf : _format_first_text s.cfg (!s.is_enabled)
      (if !s.is_enabled then s.cfg.enabled_txt else s.cfg.disabled_txt) with
  | ok t =>
    rw [click_at_zero_spec o s t h0 hf] at hres
    simp only [Except.ok.injEq, Prod.mk.injEq] at hres
    rw [← hres.2, if_neg hfail]
    exact ⟨[if s.is_enabled then Event.driverReset
        else Event.driverEnable s.cfg.temperature
          { red := s.cfg.gamma_red, green := s.cfg.gamma_green, blue := s.cfg.gamma_blue }
          s.cfg.brightness],
      [Event.setText t, Event.drawBar], by simp⟩
  | error e =>
    rw [click_at_zero_error o s e h0 hf] at hres
    exact absurd hres (by simp)

/-- Witness for C8: clicking the configured default widget while the
driver raises puts the error-text render and its redraw in the trace. -/
theorem click_driver_failure_renders_error_witness :
    List.IsInfix [Event.setText error_text, Event.drawBar]
      [Event.driverEnable "1700" { red := "1.0", green := "1.0", blue := "1.0" } "1.0",
       Event.setText error_text, Event.drawBar, Event.setText "󰛨", Event.drawBar] :=
  click_driver_failure_renders_error ProcOutcome.raise defaultRendered
    { defaultRendered with is_enabled := true, text := "󰛨" }
    [Event.driverEnable "1700" { red := "1.0", green := "1.0", blue := "1.0" } "1.0",
     Event.setText error_text, Event.drawBar, Event.setText "󰛨", Event.drawBar]
    (by decide) (by decide) (by decide)

/-- C9 counterexample: with a disabled-text template naming the
unsupported field "foo", the widget's initial configuration raises a
`KeyError` out of `str.format` (through `_set_lines`), so widget
operations are not exception-free for arbitrary template strings. -/
theorem unknown_template_field_raises :
    _configure (ProcOutcome.exit 0) (initState badConfig)
      = Except.error (PyError.keyError "foo") := by
  decide

/-- C9 amended: for every configuration whose template strings format
successfully (balanced braces, only the six supported placeholder
names), no widget operation — initial configuration, primary click,
scroll-up, scroll-down, or text rendering — raises, whatever the driver
outcome: each returns a state again satisfying the widget invariant, so
the widget keeps operating and failures only degrade the visible text. -/
theorem widget_ops_never_raise (o : ProcOutcome) (s : WidgetState)
    (hs : stateOk s = true) :
    opOk (_configure o s) = true ∧ opOk (click o s) = true ∧
      opOk (scroll_up s) = true ∧ opOk (scroll_down s) = true ∧
      opOk (_set_text s) = true := by
  obtain ⟨hwf, hshape⟩ := stateOk_elim s hs
  have hbound : (0 ≤ s.line_index ∧ s.line_index < s.lines.length) ∨ s.line_index = 0 := by
    rcases hshape with ⟨he, hi⟩ | ⟨hl, hi0, hi1⟩
    · exact Or.inr hi
    · exact Or.inl ⟨hi0, by omega⟩
  have hscroll : ∀ step : Int, opOk (_scroll step s) = true := by
    intro step
    obtain ⟨ft, hfmt⟩ := templatesOk_format s.cfg s.is_enabled hwf
    rw [_scroll_spec step s ft hfmt]
    have hnn : 0 ≤ (s.line_index + step).emod 4 :=
      Int.emod_nonneg _ (by norm_num)
    have hlt : (s.line_index + step).emod 4 < 4 :=
      Int.emod_lt_of_pos _ (by norm_num)
    simp only [opOk]
    exact stateOk_of _ hwf (Or.inr ⟨by simp [linesOf], hnn, hlt⟩)
  have hset : opOk (_set_text s) = true := by
    obtain ⟨t, ht⟩ := _set_text_ok_of s hwf hbound
    rw [ht]
    simp only [opOk]
    exact stateOk_of _ hwf hshape
  have hclick : opOk (click o s) = true := by
    by_cases h0 : s.line_index = 0
    · obtain ⟨t, ht⟩ := templatesOk_format s.cfg (!s.is_enabled) hwf
      rw [click_at_zero_spec o s t h0 ht]
      simp only [opOk]
      exact stateOk_of _ hwf hshape
    · rw [click, if_pos h0]
      simp only [opOk]
      exact hs
  have hidx4 : 0 ≤ s.line_index ∧ s.line_index < 4 := by
    rcases hshape with ⟨he, hi⟩ | ⟨hl, hi0, hi1⟩
    · omega
    · exact ⟨hi0, hi1⟩
  have hconf : opOk (_configure o s) = true := by
    obtain ⟨ft, hfmt⟩ := templatesOk_format s.cfg s.is_enabled hwf
    have hfst := reset_redshift_fst o s
    rw [_configure]
    by_cases ho : o = ProcOutcome.exit 0
    · rw [if_pos ho] at hfst
      rw [hfst, _set_lines_eq s ft hfmt]
      obtain ⟨t, ht⟩ := _set_text_ok_of { s with lines := linesOf s.cfg ft } hwf
        (Or.inl ⟨hidx4.1, by simpa [linesOf] using hidx4.2⟩)
      rw [Except.bind, ht]
      simp only [opOk, Except.map]
      exact stateOk_of _ hwf (Or.inr ⟨by simp [linesOf], hidx4.1, hidx4.2⟩)
    · rw [if_neg ho] at hfst
      rw [hfst, _set_lines_eq { s with text := error_text } ft hfmt]
      obtain ⟨t, ht⟩ := _set_text_ok_of { s with text := error_text, lines := linesOf s.cfg ft }
        hwf
        (Or.inl ⟨hidx4.1, by simpa [linesOf] using hidx4.2⟩)
      rw [Except.bind, ht]
      simp only [opOk, Except.map]
      exact stateOk_of _ hwf (Or.inr ⟨by simp [linesOf], hidx4.1, hidx4.2⟩)
  exact ⟨hconf, hclick, hscroll 1, hscroll (-1), hset⟩

/-- Witness for C9 amended: every operation on the configured default
widget completes without raising even when the driver raises. -/
theorem widget_ops_never_raise_witness :
    opOk (_configure ProcOutcome.raise defaultRendered) = true ∧
      opOk (click ProcOutcome.raise defaultRendered) = true ∧
      opOk (scroll_up defaultRendered) = true ∧
      opOk (scroll_down defaultRendered) = true ∧
      opOk (_set_text defaultRendered) = true :=
  widget_ops_never_raise ProcOutcome.raise defaultRendered (by decide)

/-- C10: `format_object` is a total function (it cannot raise) that
returns the "Gamma: R:G:B" representation of a `GammaGroup`, a string
argument unchanged, and the empty string for any other value. -/
theorem format_object_total_cases (g : GammaGroup) (s : String) :
    format_object (PyObj.gammaGroup g)
        = "Gamma: " ++ (g.red ++ ":" ++ g.green ++ ":" ++ g.blue) ∧
      format_object (PyObj.str s) = s ∧
      format_object PyObj.other = "" :=
  ⟨rfl, rfl, rfl⟩
